import Mathlib

/-!
go-tangra-ipam: request pipeline, endpoint matcher and system service

A shallow embedding of

* `internal/server/grpc.go`  (`NewGrpcWhiteListMatcher`, `systemViewerMiddleware`,
  `NewGRPCServer`),
* `internal/service/system_service.go` (`GetStats`, `TestDnsConfig`,
  `performReverseDNS`),
* `internal/data/statistics.go` (`GetTotalAddresses`),

followed by the properties established about them.

Conventions.  A Go `error` is represented by its text (`err.Error()`), a Go
`(T, error)` result by `Except String T`, a nilable pointer by `Option`.  Go
`int64`/`int32` values are integers together with an explicit wrap-around
(`wrapInt64`, `wrapInt32`).  Calls to collaborators whose effect matters
(repository reads, lookups, log lines) are recorded in an explicit event list.
-/

namespace Ipam

/-! ## Go maps with string keys -/

/-- A Go `map[K]V`, kept as a list of entries with pairwise distinct keys. -/
abbrev GoMap (κ ν : Type) := List (κ × ν)

/-- The map produced by `make(map[K]V)`. -/
def GoMap.make {κ ν : Type} : GoMap κ ν := []

/-- The assignment `m[k] = v`: an earlier entry for `k` is replaced. -/
def GoMap.set {κ ν : Type} [DecidableEq κ] (m : GoMap κ ν) (k : κ) (v : ν) : GoMap κ ν :=
  (k, v) :: m.filter (fun e => decide (e.1 ≠ k))

/-- The two-valued read `v, ok := m[k]`; `none` stands for `ok = false`. -/
def GoMap.get? {κ ν : Type} [DecidableEq κ] (m : GoMap κ ν) (k : κ) : Option ν :=
  (m.find? (fun e => decide (e.1 = k))).map Prod.snd

/-- The keys stored in the map. -/
def GoMap.keys {κ ν : Type} (m : GoMap κ ν) : List κ := m.map Prod.fst

/-! ## `NewGrpcWhiteListMatcher` (grpc.go, lines 25-36) -/

/-- The local `whiteList` built by `NewGrpcWhiteListMatcher`. -/
def whiteList : GoMap String Bool :=
  (GoMap.make : GoMap String Bool).set "/ipam.service.v1.SystemService/HealthCheck" true

/-- The closure returned by `NewGrpcWhiteListMatcher`: `false` when the operation
is a key of `whiteList`, `true` otherwise.  `Ctx` stands for `context.Context`. -/
def NewGrpcWhiteListMatcher {Ctx : Type} : Ctx → String → Bool :=
  fun _ctx operation =>
    match whiteList.get? operation with
    | some _ => false
    | none => true

/-! ## `systemViewerMiddleware` (grpc.go, lines 38-47) -/

/-- A kratos `middleware.Handler`: `func(ctx, req) (interface{}, error)`.  The
handler may have effects, so it threads a world state `σ`. -/
abbrev Handler (Ctx Req Resp σ : Type) := Ctx → Req → σ → Except String Resp × σ

/-- A kratos `middleware.Middleware`: `func(Handler) Handler`. -/
abbrev Middleware (Ctx Req Resp σ : Type) := Handler Ctx Req Resp σ → Handler Ctx Req Resp σ

/-- The middleware returned by `systemViewerMiddleware()`.  The function
`appViewer.NewSystemViewerContext` lives in `pkg/viewer` and is taken as the
parameter `newSystemViewerContext`. -/
def systemViewerMiddleware {Ctx Req Resp σ : Type} (newSystemViewerContext : Ctx → Ctx) :
    Middleware Ctx Req Resp σ :=
  fun handler =>
    fun ctx req =>
      let ctx := newSystemViewerContext ctx
      handler ctx req

/-- Instrumentation used to count invocations: the handler `h` run on a world
that additionally records every `(ctx, req)` pair it is called with. -/
def recording {Ctx Req Resp σ : Type} (h : Handler Ctx Req Resp σ) :
    Handler Ctx Req Resp (σ × List (Ctx × Req)) :=
  fun ctx req w =>
    let r := h ctx req w.1
    (r.1, (r.2, w.2 ++ [(ctx, req)]))

/-! ## `NewGRPCServer` (grpc.go, lines 49-144) -/

/-- The `cfg.Server.Grpc` section; `timeout` is the value of
`cfg.Server.Grpc.Timeout.AsDuration()`. -/
structure GrpcConfig where
  addr : String
  timeout : Int
  deriving DecidableEq, Repr

/-- The `cfg.Server` section (`Grpc` may be nil). -/
structure ServerConfig where
  grpc : Option GrpcConfig
  deriving DecidableEq, Repr

/-- The bootstrap configuration (`Server` may be nil). -/
structure Config where
  server : Option ServerConfig
  deriving DecidableEq, Repr

/-- What `NewGRPCServer` observes of a non-nil `*cert.CertManager`: the value of
`IsTLSEnabled()` and the result of `GetServerTLSConfig()`.  `TLS` stands for
`*tls.Config`. -/
structure CertManager (TLS : Type) where
  isTLSEnabled : Bool
  getServerTLSConfig : Except String TLS

/-- The middlewares `NewGRPCServer` can put on the stack, with the options each
one is built with. -/
inductive Stage where
  /-- Stage `recovery.Recovery()`. -/
  | recovery
  /-- Stage `systemViewerMiddleware()`. -/
  | systemViewer
  /-- Stage `logging.Server(logger)`. -/
  | logging
  /-- Stage `mtls.MTLSMiddleware(logger, mtls.WithPublicEndpoints(...))`. -/
  | mtls (publicEndpoints : List String)
  /-- Stage `audit.Server(logger, WithServiceName, WithWriteAuditLogFunc, WithSkipOperations(...))`. -/
  | audit (serviceName : String) (skipOperations : List String)
  /-- Stage `validate.Validator()`. -/
  | validator
  deriving DecidableEq, Repr

/-- A `grpc.ServerOption`. -/
inductive ServerOption (TLS : Type) where
  /-- Option `grpc.Address`. -/
  | address (addr : String)
  /-- Option `grpc.Timeout`. -/
  | timeout (d : Int)
  /-- Option `grpc.TLSConfig`. -/
  | tlsConfig (c : TLS)
  /-- Option `grpc.Middleware(ms...)`. -/
  | middleware (ms : List Stage)

/-- The services registered on the server. -/
inductive Service where
  | system | subnet | vlan | device | location | ipAddress | ipScan | ipGroup | hostGroup
  deriving DecidableEq, Repr

/-- A line written through the logger helper `l`. -/
inductive LogLine where
  /-- Level `Info`. -/
  | info (msg : String)
  /-- Level `Warn`. -/
  | warn (msg : String)
  /-- Level `Error`. -/
  | error (msg : String)
  deriving DecidableEq, Repr

/-- The `*grpc.Server` built by `grpc.NewServer(opts...)` together with the
services registered on it afterwards. -/
structure Server (TLS : Type) where
  opts : List (ServerOption TLS)
  services : List Service

/-- Lines 70-74: the address and timeout options. -/
def grpcConfigOptions {TLS : Type} (cfg : Config) : List (ServerOption TLS) :=
  match cfg.server with
  | some srv =>
    match srv.grpc with
    | some g => [ServerOption.address g.addr, ServerOption.timeout g.timeout]
    | none => []
  | none => []

/-- Lines 76-89: the TLS block.  Returns the options appended, the final value
of the local `tlsEnabled`, and the lines logged. -/
def configureTLS {TLS : Type} (certManager : Option (CertManager TLS)) :
    List (ServerOption TLS) × Bool × List LogLine :=
  match certManager with
  | some cm =>
    if cm.isTLSEnabled then
      match cm.getServerTLSConfig with
      | Except.error err =>
        ([], false, [LogLine.warn ("Failed to get TLS config, running without TLS: " ++ err)])
      | Except.ok tlsConfig =>
        ([ServerOption.tlsConfig tlsConfig], true, [LogLine.info "gRPC server configured with mTLS"])
    else
      ([], false, [LogLine.warn "TLS not enabled, running without mTLS"])
  | none => ([], false, [LogLine.warn "TLS not enabled, running without mTLS"])

/-- Lines 91-126: the middleware stack `ms`, with the lines logged on the way. -/
def buildMiddleware (tlsEnabled : Bool) : List Stage × List LogLine :=
  let ms : List Stage := []
  let ms := ms ++ [Stage.recovery]
  let ms := ms ++ [Stage.systemViewer]
  let ms := ms ++ [Stage.logging]
  let (ms, logs) :=
    if tlsEnabled then
      (ms ++ [Stage.mtls
        ["/grpc.health.v1.Health/Check",
         "/grpc.health.v1.Health/Watch",
         "/ipam.service.v1.SystemService/HealthCheck"]], ([] : List LogLine))
    else
      (ms, [LogLine.warn "mTLS middleware disabled (TLS not configured)"])
  let ms := ms ++ [Stage.audit "ipam-service"
    ["/grpc.health.v1.Health/Check",
     "/grpc.health.v1.Health/Watch",
     "/ipam.service.v1.SystemService/HealthCheck"]]
  let ms := ms ++ [Stage.validator]
  (ms, logs)

/-- The result of `NewGRPCServer`: the server, and the lines it logged. -/
structure NewGRPCServerResult (TLS : Type) where
  srv : Server TLS
  tlsEnabled : Bool
  logs : List LogLine

/-- Function `NewGRPCServer`.  The value of the local `tlsEnabled` is kept in the
result so that properties can refer to it. -/
def NewGRPCServer {TLS : Type} (cfg : Config) (certManager : Option (CertManager TLS)) :
    NewGRPCServerResult TLS :=
  let opts : List (ServerOption TLS) := []
  let opts := opts ++ grpcConfigOptions cfg
  let tls := configureTLS certManager
  let opts := opts ++ tls.1
  let tlsEnabled := tls.2.1
  let mw := buildMiddleware tlsEnabled
  let opts := opts ++ [ServerOption.middleware mw.1]
  { srv :=
      { opts := opts
        services :=
          [Service.system, Service.subnet, Service.vlan, Service.device, Service.location,
           Service.ipAddress, Service.ipScan, Service.ipGroup, Service.hostGroup] }
    tlsEnabled := tlsEnabled
    logs := tls.2.2 ++ mw.2 }

/-- The middleware lists handed to the server through `grpc.Middleware`. -/
def Server.middlewareLists {TLS : Type} (s : Server TLS) : List (List Stage) :=
  s.opts.filterMap (fun o => match o with
    | ServerOption.middleware ms => some ms
    | _ => none)

/-- The TLS configurations handed to the server through `grpc.TLSConfig`. -/
def Server.tlsConfigs {TLS : Type} (s : Server TLS) : List TLS :=
  s.opts.filterMap (fun o => match o with
    | ServerOption.tlsConfig c => some c
    | _ => none)

/-- Whether a stage is the mTLS authenticator. -/
def Stage.isMtls : Stage → Bool
  | Stage.mtls _ => true
  | _ => false

/-- The public-endpoint lists of the mTLS stages of a stack. -/
def publicEndpointSets (ms : List Stage) : List (List String) :=
  ms.filterMap (fun s => match s with
    | Stage.mtls pe => some pe
    | _ => none)

/-- The skip-operation lists of the audit stages of a stack. -/
def skipOperationSets (ms : List Stage) : List (List String) :=
  ms.filterMap (fun s => match s with
    | Stage.audit _ so => some so
    | _ => none)

/-! ## Machine integers -/

/-- The value a Go `int64` holds after an arithmetic result `x`: two's-complement
wrap-around into `[-2^63, 2^63)`. -/
def wrapInt64 (x : Int) : Int :=
  (x + 9223372036854775808) % 18446744073709551616 - 9223372036854775808

/-- The value a Go `int32` conversion yields: wrap-around into `[-2^31, 2^31)`. -/
def wrapInt32 (x : Int) : Int :=
  (x + 2147483648) % 4294967296 - 2147483648

/-- A Go `int64`: an integer in `[-2^63, 2^63)`. -/
abbrev GoInt64 := { v : Int // -9223372036854775808 ≤ v ∧ v < 9223372036854775808 }

/-- Conversion of an arithmetic result to `int64`. -/
def GoInt64.ofInt (x : Int) : GoInt64 :=
  ⟨wrapInt64 x, by unfold wrapInt64; omega⟩

/-- The `int64` zero value. -/
def GoInt64.zero : GoInt64 := ⟨0, by omega⟩

/-- Go `a - b` on `int64`. -/
def GoInt64.sub (a b : GoInt64) : GoInt64 := GoInt64.ofInt (a.val - b.val)

/-- Go `a + b` on `int64`. -/
def GoInt64.add (a b : GoInt64) : GoInt64 := GoInt64.ofInt (a.val + b.val)

/-! ## `StatisticsRepo` (statistics.go) -/

/-- Method `GetTotalAddresses` (statistics.go, lines 37-49).  The argument is the
result of `Subnet.Query().All(ctx)`, each subnet given by its `TotalAddresses`. -/
def GetTotalAddresses (all : Except String (List GoInt64)) : Except String GoInt64 :=
  match all with
  | Except.error err => Except.error err
  | Except.ok subnets =>
    Except.ok (subnets.foldl (fun total s => GoInt64.add total s) GoInt64.zero)

/-- The six queries `GetStats` issues. -/
inductive StatsQuery where
  | subnetCount | totalAddresses | totalAddressCount | vlanCount | deviceCount | locationCount
  deriving DecidableEq, Repr

/-- What `GetStats` observes of its `statsRepo`: the `(int64, error)` result of
each of the six methods it calls. -/
structure StatisticsRepo where
  GetSubnetCount : Except String GoInt64
  GetTotalAddresses : Except String GoInt64
  GetTotalAddressCount : Except String GoInt64
  GetVlanCount : Except String GoInt64
  GetDeviceCount : Except String GoInt64
  GetLocationCount : Except String GoInt64

/-! ## `SystemService.GetStats` (system_service.go, lines 43-108) -/

/-- A `float64` field that `GetStats` either leaves at its zero value or sets to
`float64(used) / float64(total) * 100`; the quotient is kept symbolic. -/
inductive Utilization where
  /-- The zero value `0`. -/
  | zero
  /-- The value `float64(used) / float64(total) * 100`. -/
  | percent (used total : GoInt64)
  deriving DecidableEq

/-- Message `ipamV1.GetStatsResponse`. -/
structure GetStatsResponse where
  TotalSubnets : GoInt64 := GoInt64.zero
  TotalAddresses : GoInt64 := GoInt64.zero
  UsedAddresses : GoInt64 := GoInt64.zero
  AvailableAddresses : GoInt64 := GoInt64.zero
  TotalVlans : GoInt64 := GoInt64.zero
  TotalDevices : GoInt64 := GoInt64.zero
  TotalLocations : GoInt64 := GoInt64.zero
  OverallUtilization : Utilization := Utilization.zero
  deriving DecidableEq

/-- What `GetStats` does besides computing its result. -/
inductive StatsEvent where
  /-- A call of a `statsRepo` method. -/
  | query (q : StatsQuery)
  /-- A line written to `s.log`. -/
  | log (l : LogLine)
  deriving DecidableEq, Repr

/-- The outcome of `GetStats`: the returned pointer (`none` is nil), the returned
error (`none` is nil) and the events in the order they happened. -/
structure GetStatsResult where
  response : Option GetStatsResponse
  err : Option String
  events : List StatsEvent

/-- Method `SystemService.GetStats`. -/
def GetStats (repo : StatisticsRepo) : GetStatsResult :=
  let ev : List StatsEvent := [StatsEvent.log (LogLine.info "GetStats called")]
  let response : GetStatsResponse := {}
  -- Get subnet count
  let ev := ev ++ [StatsEvent.query StatsQuery.subnetCount]
  let (response, ev) :=
    match repo.GetSubnetCount with
    | Except.error err =>
      (response, ev ++ [StatsEvent.log (LogLine.error ("Failed to get subnet count: " ++ err))])
    | Except.ok subnetCount => ({ response with TotalSubnets := subnetCount }, ev)
  -- Get total addresses (sum of subnet capacity)
  let ev := ev ++ [StatsEvent.query StatsQuery.totalAddresses]
  let (response, ev) :=
    match repo.GetTotalAddresses with
    | Except.error err =>
      (response, ev ++ [StatsEvent.log (LogLine.error ("Failed to get total addresses: " ++ err))])
    | Except.ok totalAddresses => ({ response with TotalAddresses := totalAddresses }, ev)
  -- Get used addresses (total IP address records)
  let ev := ev ++ [StatsEvent.query StatsQuery.totalAddressCount]
  let (response, ev) :=
    match repo.GetTotalAddressCount with
    | Except.error err =>
      (response, ev ++ [StatsEvent.log (LogLine.error ("Failed to get used address count: " ++ err))])
    | Except.ok usedAddresses => ({ response with UsedAddresses := usedAddresses }, ev)
  -- Calculate available addresses
  let response :=
    { response with
      AvailableAddresses := GoInt64.sub response.TotalAddresses response.UsedAddresses }
  let response :=
    if response.AvailableAddresses.val < 0 then
      { response with AvailableAddresses := GoInt64.zero }
    else response
  -- Get VLAN count
  let ev := ev ++ [StatsEvent.query StatsQuery.vlanCount]
  let (response, ev) :=
    match repo.GetVlanCount with
    | Except.error err =>
      (response, ev ++ [StatsEvent.log (LogLine.error ("Failed to get VLAN count: " ++ err))])
    | Except.ok vlanCount => ({ response with TotalVlans := vlanCount }, ev)
  -- Get device count
  let ev := ev ++ [StatsEvent.query StatsQuery.deviceCount]
  let (response, ev) :=
    match repo.GetDeviceCount with
    | Except.error err =>
      (response, ev ++ [StatsEvent.log (LogLine.error ("Failed to get device count: " ++ err))])
    | Except.ok deviceCount => ({ response with TotalDevices := deviceCount }, ev)
  -- Get location count
  let ev := ev ++ [StatsEvent.query StatsQuery.locationCount]
  let (response, ev) :=
    match repo.GetLocationCount with
    | Except.error err =>
      (response, ev ++ [StatsEvent.log (LogLine.error ("Failed to get location count: " ++ err))])
    | Except.ok locationCount => ({ response with TotalLocations := locationCount }, ev)
  -- Calculate overall utilization
  let response :=
    if response.TotalAddresses.val > 0 then
      { response with
        OverallUtilization := Utilization.percent response.UsedAddresses response.TotalAddresses }
    else response
  { response := some response, err := none, events := ev }

/-- The value a count field ends with: the query's value, or the zero value on
failure. -/
def valueOrZero (r : Except String GoInt64) : GoInt64 :=
  match r with
  | Except.ok v => v
  | Except.error _ => GoInt64.zero

/-- The queries of `GetStats` in the order they were issued. -/
def queriesIssued (evs : List StatsEvent) : List StatsQuery :=
  evs.filterMap (fun e => match e with
    | StatsEvent.query q => some q
    | StatsEvent.log _ => none)

/-! ## `performReverseDNS` and `SystemService.TestDnsConfig` (system_service.go) -/

/-- The name resolution `performReverseDNS` relies on: `net.LookupAddr` of the
system resolver, and `LookupAddr` of the custom `net.Resolver` whose `Dial` tries
`servers` with `timeoutMs` (both the dial timeout and the context deadline). -/
structure Resolver where
  systemLookupAddr : String → Except String (List String)
  customLookupAddr : List String → Int → String → Except String (List String)

/-- Function `performReverseDNS` (lines 225-272). -/
def performReverseDNS (net : Resolver) (ip : String) (servers : List String) (timeoutMs : Int) :
    Except String String :=
  if servers.length = 0 then
    match net.systemLookupAddr ip with
    | Except.error err => Except.error err
    | Except.ok names =>
      match names with
      | n :: _ => Except.ok n
      | [] => Except.ok ""
  else
    match net.customLookupAddr servers timeoutMs ip with
    | Except.error err => Except.error err
    | Except.ok names =>
      match names with
      | n :: _ => Except.ok n
      | [] => Except.ok ""

/-- Message `ipamV1.TestDnsConfigRequest`; `TenantId` is the value of
`req.GetTenantId()`. -/
structure TestDnsConfigRequest where
  TenantId : Nat
  TestIp : String
  DnsServers : List String

/-- Message `ipamV1.TestDnsConfigResponse`; the optional fields are pointers. -/
structure TestDnsConfigResponse where
  Success : Bool := false
  Hostname : Option String := none
  ErrorMessage : Option String := none
  LatencyMs : Option Int := none
  deriving DecidableEq, Repr

/-- The result `(servers, timeoutMs, useSystemFallback)` of
`dnsConfigRepo.GetDnsServers`. -/
structure DnsServers where
  servers : List String
  timeoutMs : Int
  useSystemFallback : Bool

/-- What `TestDnsConfig` does besides computing its result. -/
inductive DnsEvent where
  /-- A call `dnsConfigRepo.GetDnsServers(ctx, tenantId)`. -/
  | getDnsServers (tenantId : Nat)
  /-- A call `performReverseDNS(ip, servers, timeoutMs)`. -/
  | reverseDNS (ip : String) (servers : List String) (timeoutMs : Int)
  deriving DecidableEq, Repr

/-- The outcome of `TestDnsConfig`: the returned pointer, the returned error
(`none` is nil) and the events in order. -/
structure TestDnsConfigResult where
  response : Option TestDnsConfigResponse
  err : Option String
  events : List DnsEvent

/-- Method `SystemService.TestDnsConfig` (lines 154-193).  `getDnsServers` is the
repository method `dnsConfigRepo.GetDnsServers` (package `data`, taken as a
parameter), `elapsedMs` the value of `time.Since(startTime).Milliseconds()`. -/
def TestDnsConfig (getDnsServers : Nat → Except String DnsServers) (net : Resolver)
    (elapsedMs : Int) (req : TestDnsConfigRequest) : TestDnsConfigResult :=
  let timeoutMs : Int := 5000
  let chosen : Except TestDnsConfigResult (List String × Int × List DnsEvent) :=
    if req.DnsServers.length > 0 then
      -- Use servers from request for testing
      Except.ok (req.DnsServers, timeoutMs, [])
    else
      -- Use configured servers
      match getDnsServers req.TenantId with
      | Except.error err =>
        Except.error
          { response := some
              { Success := false
                ErrorMessage := some ("Failed to get DNS config: " ++ err) }
            err := none
            events := [DnsEvent.getDnsServers req.TenantId] }
      | Except.ok cfg =>
        Except.ok (cfg.servers, cfg.timeoutMs, [DnsEvent.getDnsServers req.TenantId])
  match chosen with
  | Except.error early => early
  | Except.ok (servers, timeoutMs, ev) =>
    -- Perform reverse DNS lookup
    let ev := ev ++ [DnsEvent.reverseDNS req.TestIp servers timeoutMs]
    let latency := wrapInt32 elapsedMs
    match performReverseDNS net req.TestIp servers timeoutMs with
    | Except.error err =>
      { response := some
          { Success := false
            ErrorMessage := some err
            LatencyMs := some latency }
        err := none
        events := ev }
    | Except.ok hostname =>
      { response := some
          { Success := true
            Hostname := some hostname
            LatencyMs := some latency }
        err := none
        events := ev }

/-- The repository reads among the events. -/
def configReads (evs : List DnsEvent) : List Nat :=
  evs.filterMap (fun e => match e with
    | DnsEvent.getDnsServers t => some t
    | DnsEvent.reverseDNS _ _ _ => none)

/-- The lookups among the events, each with its servers and timeout. -/
def lookups (evs : List DnsEvent) : List (String × List String × Int) :=
  evs.filterMap (fun e => match e with
    | DnsEvent.getDnsServers _ => none
    | DnsEvent.reverseDNS ip servers t => some (ip, servers, t))

/-! ## Concrete configurations used in the examples -/

/-- A certificate manager with TLS enabled whose configuration loads. -/
def loadedManager : CertManager Unit :=
  { isTLSEnabled := true, getServerTLSConfig := Except.ok () }

/-- A configuration without a `Server` section. -/
def emptyConfig : Config := { server := none }

/-- The stack built when TLS is enabled. -/
def tlsStack : List Stage :=
  [Stage.recovery, Stage.systemViewer, Stage.logging,
   Stage.mtls ["/grpc.health.v1.Health/Check", "/grpc.health.v1.Health/Watch",
     "/ipam.service.v1.SystemService/HealthCheck"],
   Stage.audit "ipam-service" ["/grpc.health.v1.Health/Check", "/grpc.health.v1.Health/Watch",
     "/ipam.service.v1.SystemService/HealthCheck"],
   Stage.validator]

/-- The stack built when TLS is not enabled. -/
def plainStack : List Stage :=
  [Stage.recovery, Stage.systemViewer, Stage.logging,
   Stage.audit "ipam-service" ["/grpc.health.v1.Health/Check", "/grpc.health.v1.Health/Watch",
     "/ipam.service.v1.SystemService/HealthCheck"],
   Stage.validator]

/-- The response `GetStats` builds, in closed form. -/
def statsResponse (repo : StatisticsRepo) : GetStatsResponse :=
  { TotalSubnets := valueOrZero repo.GetSubnetCount
    TotalAddresses := valueOrZero repo.GetTotalAddresses
    UsedAddresses := valueOrZero repo.GetTotalAddressCount
    AvailableAddresses :=
      if (GoInt64.sub (valueOrZero repo.GetTotalAddresses)
            (valueOrZero repo.GetTotalAddressCount)).val < 0 then GoInt64.zero
      else GoInt64.sub (valueOrZero repo.GetTotalAddresses) (valueOrZero repo.GetTotalAddressCount)
    TotalVlans := valueOrZero repo.GetVlanCount
    TotalDevices := valueOrZero repo.GetDeviceCount
    TotalLocations := valueOrZero repo.GetLocationCount
    OverallUtilization :=
      if (valueOrZero repo.GetTotalAddresses).val > 0 then
        Utilization.percent (valueOrZero repo.GetTotalAddressCount)
          (valueOrZero repo.GetTotalAddresses)
      else Utilization.zero }

/-- Two subnets of `2^62` addresses each. -/
def twoHugeSubnets : List GoInt64 :=
  [⟨4611686018427387904, by omega⟩, ⟨4611686018427387904, by omega⟩]

/-- A repository state with the two subnets of `twoHugeSubnets` and one address
record; every query succeeds. -/
def overflowRepo : StatisticsRepo :=
  { GetSubnetCount := Except.ok ⟨2, by omega⟩
    GetTotalAddresses := GetTotalAddresses (Except.ok twoHugeSubnets)
    GetTotalAddressCount := Except.ok ⟨1, by omega⟩
    GetVlanCount := Except.ok ⟨0, by omega⟩
    GetDeviceCount := Except.ok ⟨0, by omega⟩
    GetLocationCount := Except.ok ⟨0, by omega⟩ }

/-! ## Helper lemmas -/

theorem GetStats_response (repo : StatisticsRepo) :
    (GetStats repo).response = some (statsResponse repo) := by
  rcases repo with ⟨a | a, b | b, c | c, d | d, e | e, f | f⟩ <;>
    simp only [GetStats, statsResponse, valueOrZero] <;> split_ifs <;> rfl

theorem GetStats_queriesIssued (repo : StatisticsRepo) :
    queriesIssued (GetStats repo).events =
      [StatsQuery.subnetCount, StatsQuery.totalAddresses, StatsQuery.totalAddressCount,
       StatsQuery.vlanCount, StatsQuery.deviceCount, StatsQuery.locationCount] := by
  rcases repo with ⟨a | a, b | b, c | c, d | d, e | e, f | f⟩ <;> rfl

theorem whiteList_get?_eq (operation : String) :
    whiteList.get? operation =
      if operation = "/ipam.service.v1.SystemService/HealthCheck" then some true else none := by
  unfold whiteList GoMap.get? GoMap.set GoMap.make
  by_cases h : operation = "/ipam.service.v1.SystemService/HealthCheck"
  · subst h; simp
  · have h2 : ¬ ("/ipam.service.v1.SystemService/HealthCheck" = operation) := fun e => h e.symm
    simp [h, h2]

theorem whiteList_keys_eq :
    whiteList.keys = ["/ipam.service.v1.SystemService/HealthCheck"] := by
  simp [whiteList, GoMap.keys, GoMap.set, GoMap.make]

theorem matcher_eq {Ctx : Type} (ctx : Ctx) (operation : String) :
    NewGrpcWhiteListMatcher ctx operation =
      !decide (operation = "/ipam.service.v1.SystemService/HealthCheck") := by
  unfold NewGrpcWhiteListMatcher
  rw [whiteList_get?_eq]
  by_cases h : operation = "/ipam.service.v1.SystemService/HealthCheck" <;> simp [h]

theorem buildMiddleware_fst (tlsEnabled : Bool) :
    (buildMiddleware tlsEnabled).1 = if tlsEnabled = true then tlsStack else plainStack := by
  cases tlsEnabled <;> rfl

theorem configureTLS_enabled_iff {TLS : Type} (certManager : Option (CertManager TLS)) :
    (configureTLS certManager).2.1 = true ↔
      ∃ cm tlsConfig, certManager = some cm ∧ cm.isTLSEnabled = true ∧
        cm.getServerTLSConfig = Except.ok tlsConfig := by
  rcases certManager with _ | ⟨_ | _, _ | c⟩ <;> simp [configureTLS]

theorem configureTLS_options {TLS : Type} (certManager : Option (CertManager TLS)) :
    ((configureTLS certManager).2.1 = true ∧
        ∃ c, (configureTLS certManager).1 = [ServerOption.tlsConfig c]) ∨
      ((configureTLS certManager).2.1 = false ∧ (configureTLS certManager).1 = []) := by
  rcases certManager with _ | ⟨_ | _, _ | c⟩ <;> simp [configureTLS]

theorem NewGRPCServer_middlewareLists {TLS : Type} (cfg : Config)
    (certManager : Option (CertManager TLS)) :
    (NewGRPCServer cfg certManager).srv.middlewareLists =
      [if (NewGRPCServer cfg certManager).tlsEnabled = true then tlsStack else plainStack] := by
  have h : (NewGRPCServer cfg certManager).tlsEnabled = (configureTLS certManager).2.1 := rfl
  rw [h, ← buildMiddleware_fst]
  rcases cfg with ⟨_ | ⟨_ | g⟩⟩ <;>
    rcases configureTLS_options certManager with ⟨_, c, hc⟩ | ⟨_, hc⟩ <;>
    simp [NewGRPCServer, Server.middlewareLists, grpcConfigOptions, hc]

theorem NewGRPCServer_tlsConfigs {TLS : Type} (cfg : Config)
    (certManager : Option (CertManager TLS)) :
    (NewGRPCServer cfg certManager).srv.tlsConfigs =
      (match certManager with
        | some cm =>
          if cm.isTLSEnabled = true then
            (match cm.getServerTLSConfig with
              | Except.ok c => [c]
              | Except.error _ => [])
          else []
        | none => []) := by
  rcases cfg with ⟨_ | ⟨_ | g⟩⟩ <;>
    rcases certManager with _ | ⟨_ | _, _ | c⟩ <;>
    simp [NewGRPCServer, Server.tlsConfigs, grpcConfigOptions, configureTLS]

theorem mem_middlewareLists {TLS : Type} (cfg : Config)
    (certManager : Option (CertManager TLS)) (ms : List Stage)
    (hms : ms ∈ (NewGRPCServer cfg certManager).srv.middlewareLists) :
    ms = tlsStack ∨ ms = plainStack := by
  rw [NewGRPCServer_middlewareLists] at hms
  by_cases h : (NewGRPCServer cfg certManager).tlsEnabled = true
  · left; simpa [h] using hms
  · right; simpa [h] using hms

theorem publicEndpointSets_tlsStack :
    publicEndpointSets tlsStack =
      [["/grpc.health.v1.Health/Check", "/grpc.health.v1.Health/Watch",
        "/ipam.service.v1.SystemService/HealthCheck"]] := rfl

theorem skipOperationSets_tlsStack :
    skipOperationSets tlsStack =
      [["/grpc.health.v1.Health/Check", "/grpc.health.v1.Health/Watch",
        "/ipam.service.v1.SystemService/HealthCheck"]] := rfl

theorem publicEndpointSets_plainStack : publicEndpointSets plainStack = [] := rfl

/-! ## The request pipeline -/

/-- C1: for every configuration and certificate manager, `NewGRPCServer` passes
exactly one middleware list to the server; it is
`[Recovery, SystemViewer, Access Log, mTLS, Audit, Validator]` when `tlsEnabled`
ended up true and `[Recovery, SystemViewer, Access Log, Audit, Validator]`
otherwise.  Recovery is first, Validator last, and the mTLS stage, when present,
sits directly after Access Log and directly before Audit. -/
theorem newGRPCServer_middleware_order {TLS : Type} (cfg : Config)
    (certManager : Option (CertManager TLS)) :
    ∃ ms : List Stage,
      (NewGRPCServer cfg certManager).srv.middlewareLists = [ms] ∧
      ms = (if (NewGRPCServer cfg certManager).tlsEnabled = true then
              [Stage.recovery, Stage.systemViewer, Stage.logging,
               Stage.mtls ["/grpc.health.v1.Health/Check", "/grpc.health.v1.Health/Watch",
                 "/ipam.service.v1.SystemService/HealthCheck"],
               Stage.audit "ipam-service"
                 ["/grpc.health.v1.Health/Check", "/grpc.health.v1.Health/Watch",
                  "/ipam.service.v1.SystemService/HealthCheck"],
               Stage.validator]
            else
              [Stage.recovery, Stage.systemViewer, Stage.logging,
               Stage.audit "ipam-service"
                 ["/grpc.health.v1.Health/Check", "/grpc.health.v1.Health/Watch",
                  "/ipam.service.v1.SystemService/HealthCheck"],
               Stage.validator]) ∧
      ms.head? = some Stage.recovery ∧
      ms.getLast? = some Stage.validator ∧
      (∀ i : Nat, (∃ s, ms[i]? = some s ∧ s.isMtls = true) →
        (NewGRPCServer cfg certManager).tlsEnabled = true ∧
        ms[i - 1]? = some Stage.logging ∧
        ms[i + 1]? = some (Stage.audit "ipam-service"
          ["/grpc.health.v1.Health/Check", "/grpc.health.v1.Health/Watch",
           "/ipam.service.v1.SystemService/HealthCheck"])) ∧
      ((NewGRPCServer cfg certManager).tlsEnabled = true → ∃ s, ms[3]? = some s ∧ s.isMtls = true) := by
  refine ⟨_, NewGRPCServer_middlewareLists cfg certManager, ?_⟩
  cases (NewGRPCServer cfg certManager).tlsEnabled
  · refine ⟨rfl, rfl, rfl, ?_, by simp⟩
    rintro i ⟨s, hs, hm⟩
    exfalso
    match i, hs with
    | 0, hs | 1, hs | 2, hs | 3, hs | 4, hs =>
      simp [plainStack] at hs; subst hs; simp [Stage.isMtls] at hm
    | i + 5, hs => simp [plainStack] at hs
  · refine ⟨rfl, rfl, rfl, ?_, fun _ => ⟨_, rfl, rfl⟩⟩
    rintro i ⟨s, hs, hm⟩
    match i, hs with
    | 3, _ => exact ⟨rfl, rfl, rfl⟩
    | 0, hs | 1, hs | 2, hs | 4, hs | 5, hs =>
      simp [tlsStack] at hs; subst hs; simp [Stage.isMtls] at hm
    | i + 6, hs => simp [tlsStack] at hs

/-- C2: the mTLS stage is on the stack if and only if the certificate manager is
non-nil, reports `IsTLSEnabled() = true` and `GetServerTLSConfig()` succeeds; the
TLS server option is present exactly when the mTLS stage is; and in every case,
the three failing ones included, a server is returned with its single middleware
list and all nine services registered. -/
theorem newGRPCServer_mtls_iff_tls_loaded {TLS : Type} (cfg : Config)
    (certManager : Option (CertManager TLS)) :
    ((∃ ms ∈ (NewGRPCServer cfg certManager).srv.middlewareLists, ∃ s ∈ ms, s.isMtls = true) ↔
      ∃ cm tlsConfig, certManager = some cm ∧ cm.isTLSEnabled = true ∧
        cm.getServerTLSConfig = Except.ok tlsConfig) ∧
    ((NewGRPCServer cfg certManager).srv.tlsConfigs ≠ [] ↔
      ∃ ms ∈ (NewGRPCServer cfg certManager).srv.middlewareLists, ∃ s ∈ ms, s.isMtls = true) ∧
    (certManager = none →
      (NewGRPCServer cfg certManager).srv.tlsConfigs = [] ∧
      (NewGRPCServer cfg certManager).srv.middlewareLists = [plainStack]) ∧
    (∀ cm, certManager = some cm → cm.isTLSEnabled = false →
      (NewGRPCServer cfg certManager).srv.tlsConfigs = [] ∧
      (NewGRPCServer cfg certManager).srv.middlewareLists = [plainStack]) ∧
    (∀ cm err, certManager = some cm → cm.getServerTLSConfig = Except.error err →
      (NewGRPCServer cfg certManager).srv.tlsConfigs = [] ∧
      (NewGRPCServer cfg certManager).srv.middlewareLists = [plainStack]) ∧
    (∀ s ∈ plainStack, s.isMtls = false) ∧
    (NewGRPCServer cfg certManager).srv.services =
      [Service.system, Service.subnet, Service.vlan, Service.device, Service.location,
       Service.ipAddress, Service.ipScan, Service.ipGroup, Service.hostGroup] := by
  have hml := NewGRPCServer_middlewareLists cfg certManager
  have htc := NewGRPCServer_tlsConfigs cfg certManager
  have hen : (NewGRPCServer cfg certManager).tlsEnabled = (configureTLS certManager).2.1 := rfl
  have hiff := configureTLS_enabled_iff certManager
  have hplain : ∀ s ∈ plainStack, s.isMtls = false := by
    intro s hs
    simp [plainStack] at hs
    rcases hs with h | h | h | h | h <;> subst h <;> rfl
  have hstage : (∃ ms ∈ (NewGRPCServer cfg certManager).srv.middlewareLists,
      ∃ s ∈ ms, s.isMtls = true) ↔ (configureTLS certManager).2.1 = true := by
    rw [hml, hen]
    cases (configureTLS certManager).2.1
    · simp only [Bool.false_eq_true, if_false, List.mem_singleton, exists_eq_left, iff_false]
      rintro ⟨s, hs, hm⟩
      rw [hplain s hs] at hm
      exact Bool.false_ne_true hm
    · simp only [if_true, List.mem_singleton, exists_eq_left, iff_true]
      exact ⟨Stage.mtls ["/grpc.health.v1.Health/Check", "/grpc.health.v1.Health/Watch",
        "/ipam.service.v1.SystemService/HealthCheck"], by simp [tlsStack], rfl⟩
  refine ⟨hstage.trans hiff, ?_, ?_, ?_, ?_, hplain, rfl⟩
  · rw [hstage, hiff, htc]
    rcases certManager with _ | ⟨_ | _, _ | c⟩ <;> simp
  · rintro rfl
    exact ⟨by simpa using htc, by simpa [NewGRPCServer, configureTLS] using hml⟩
  · rintro ⟨en, r⟩ rfl hfalse
    simp only at hfalse
    subst hfalse
    exact ⟨by simpa using htc, by simpa [NewGRPCServer, configureTLS] using hml⟩
  · rintro ⟨en, r⟩ err rfl herr
    simp only at herr
    subst herr
    refine ⟨by cases en <;> simpa using htc, ?_⟩
    cases en <;> simpa [NewGRPCServer, configureTLS] using hml

/-! ## The endpoint matcher -/

/-- C3: for every context and every operation string, the matcher returns `false`
exactly when the operation is a key of the allow-list and `true` otherwise; with
the built-in allow-list that is exactly when the operation equals
`/ipam.service.v1.SystemService/HealthCheck` (the empty string, a proper prefix,
an extension and a differently cased spelling are all protected), and the result
does not depend on the context. -/
theorem whiteListMatcher_exact {Ctx : Type} (ctx : Ctx) (operation : String) :
    (NewGrpcWhiteListMatcher ctx operation = false ↔ operation ∈ whiteList.keys) ∧
    (NewGrpcWhiteListMatcher ctx operation = true ↔ operation ∉ whiteList.keys) ∧
    (NewGrpcWhiteListMatcher ctx operation = false ↔
      operation = "/ipam.service.v1.SystemService/HealthCheck") ∧
    (∀ ctx2 : Ctx, NewGrpcWhiteListMatcher ctx2 operation = NewGrpcWhiteListMatcher ctx operation) ∧
    NewGrpcWhiteListMatcher ctx "/ipam.service.v1.SystemService/HealthCheck" = false ∧
    NewGrpcWhiteListMatcher ctx "" = true ∧
    NewGrpcWhiteListMatcher ctx "/ipam.service.v1.SystemService/Health" = true ∧
    NewGrpcWhiteListMatcher ctx "/ipam.service.v1.SystemService/HealthCheck/" = true ∧
    NewGrpcWhiteListMatcher ctx "/ipam.service.v1.systemservice/healthcheck" = true ∧
    NewGrpcWhiteListMatcher ctx "/ipam.service.v1.SystemService/GetStats" = true := by
  refine ⟨?_, ?_, ?_, ?_, ?_, ?_, ?_, ?_, ?_, ?_⟩
  · rw [matcher_eq, whiteList_keys_eq]; simp
  · rw [matcher_eq, whiteList_keys_eq]; simp
  · rw [matcher_eq]; simp
  · intro ctx2; rw [matcher_eq, matcher_eq]
  all_goals rw [matcher_eq]; decide

/-- C4: whenever `NewGRPCServer` installs both an mTLS stage and an audit stage,
the public endpoints given to the former and the skip operations given to the
latter contain the same operations, and both contain
`/ipam.service.v1.SystemService/HealthCheck`. -/
theorem public_endpoints_iff_skip_operations {TLS : Type} (cfg : Config)
    (certManager : Option (CertManager TLS)) (ms : List Stage) (pe so : List String)
    (operation : String)
    (hms : ms ∈ (NewGRPCServer cfg certManager).srv.middlewareLists)
    (hpe : pe ∈ publicEndpointSets ms) (hso : so ∈ skipOperationSets ms) :
    (operation ∈ pe ↔ operation ∈ so) ∧ pe = so ∧
    "/ipam.service.v1.SystemService/HealthCheck" ∈ pe ∧
    "/ipam.service.v1.SystemService/HealthCheck" ∈ so := by
  rcases mem_middlewareLists cfg certManager ms hms with rfl | rfl
  · rw [publicEndpointSets_tlsStack, List.mem_singleton] at hpe
    rw [skipOperationSets_tlsStack, List.mem_singleton] at hso
    subst hpe; subst hso
    simp
  · rw [publicEndpointSets_plainStack] at hpe
    exact absurd hpe (List.not_mem_nil _)

/-- Witness for C4: the server built with a loaded TLS identity. -/
theorem public_endpoints_iff_skip_operations_witness :
    tlsStack ∈ (NewGRPCServer emptyConfig (some loadedManager)).srv.middlewareLists ∧
    ["/grpc.health.v1.Health/Check", "/grpc.health.v1.Health/Watch",
      "/ipam.service.v1.SystemService/HealthCheck"] ∈ publicEndpointSets tlsStack ∧
    ["/grpc.health.v1.Health/Check", "/grpc.health.v1.Health/Watch",
      "/ipam.service.v1.SystemService/HealthCheck"] ∈ skipOperationSets tlsStack ∧
    (("/grpc.health.v1.Health/Watch" ∈
        ["/grpc.health.v1.Health/Check", "/grpc.health.v1.Health/Watch",
          "/ipam.service.v1.SystemService/HealthCheck"] ↔
      "/grpc.health.v1.Health/Watch" ∈
        ["/grpc.health.v1.Health/Check", "/grpc.health.v1.Health/Watch",
          "/ipam.service.v1.SystemService/HealthCheck"]) ∧
     ["/grpc.health.v1.Health/Check", "/grpc.health.v1.Health/Watch",
        "/ipam.service.v1.SystemService/HealthCheck"] =
      ["/grpc.health.v1.Health/Check", "/grpc.health.v1.Health/Watch",
        "/ipam.service.v1.SystemService/HealthCheck"] ∧
     "/ipam.service.v1.SystemService/HealthCheck" ∈
        ["/grpc.health.v1.Health/Check", "/grpc.health.v1.Health/Watch",
          "/ipam.service.v1.SystemService/HealthCheck"] ∧
     "/ipam.service.v1.SystemService/HealthCheck" ∈
        ["/grpc.health.v1.Health/Check", "/grpc.health.v1.Health/Watch",
          "/ipam.service.v1.SystemService/HealthCheck"]) :=
  have hms : tlsStack ∈ (NewGRPCServer emptyConfig (some loadedManager)).srv.middlewareLists := by
    decide
  have hpe : ["/grpc.health.v1.Health/Check", "/grpc.health.v1.Health/Watch",
      "/ipam.service.v1.SystemService/HealthCheck"] ∈ publicEndpointSets tlsStack := by decide
  have hso : ["/grpc.health.v1.Health/Check", "/grpc.health.v1.Health/Watch",
      "/ipam.service.v1.SystemService/HealthCheck"] ∈ skipOperationSets tlsStack := by decide
  ⟨hms, hpe, hso,
    public_endpoints_iff_skip_operations emptyConfig (some loadedManager) tlsStack _ _
      "/grpc.health.v1.Health/Watch" hms hpe hso⟩

/-- C5: the code at the failing inputs.  With a loaded TLS identity the mTLS
stage is given `/grpc.health.v1.Health/Check` and `/grpc.health.v1.Health/Watch`
as public endpoints, yet the matcher, documented as defining the public
endpoints, reports both as protected; so the matcher returning `false` is not
equivalent to being a public endpoint of the mTLS stage. -/
theorem matcher_disagrees_with_mtls_public_endpoints :
    tlsStack ∈ (NewGRPCServer emptyConfig (some loadedManager)).srv.middlewareLists ∧
    publicEndpointSets tlsStack =
      [["/grpc.health.v1.Health/Check", "/grpc.health.v1.Health/Watch",
        "/ipam.service.v1.SystemService/HealthCheck"]] ∧
    NewGrpcWhiteListMatcher () "/grpc.health.v1.Health/Check" = true ∧
    NewGrpcWhiteListMatcher () "/grpc.health.v1.Health/Watch" = true ∧
    ¬ (NewGrpcWhiteListMatcher () "/grpc.health.v1.Health/Check" = false ↔
        ∃ ms ∈ (NewGRPCServer emptyConfig (some loadedManager)).srv.middlewareLists,
          ∃ pe ∈ publicEndpointSets ms, "/grpc.health.v1.Health/Check" ∈ pe) ∧
    ¬ (NewGrpcWhiteListMatcher () "/grpc.health.v1.Health/Watch" = false ↔
        ∃ ms ∈ (NewGRPCServer emptyConfig (some loadedManager)).srv.middlewareLists,
          ∃ pe ∈ publicEndpointSets ms, "/grpc.health.v1.Health/Watch" ∈ pe) := by
  have hms : tlsStack ∈ (NewGRPCServer emptyConfig (some loadedManager)).srv.middlewareLists := by
    decide
  have hcheck : NewGrpcWhiteListMatcher () "/grpc.health.v1.Health/Check" = true := by
    rw [matcher_eq]; decide
  have hwatch : NewGrpcWhiteListMatcher () "/grpc.health.v1.Health/Watch" = true := by
    rw [matcher_eq]; decide
  refine ⟨hms, rfl, hcheck, hwatch, ?_, ?_⟩
  · intro h
    have hfalse := h.mpr ⟨tlsStack, hms,
      ["/grpc.health.v1.Health/Check", "/grpc.health.v1.Health/Watch",
        "/ipam.service.v1.SystemService/HealthCheck"], by decide, by decide⟩
    rw [hcheck] at hfalse
    exact Bool.noConfusion hfalse
  · intro h
    have hfalse := h.mpr ⟨tlsStack, hms,
      ["/grpc.health.v1.Health/Check", "/grpc.health.v1.Health/Watch",
        "/ipam.service.v1.SystemService/HealthCheck"], by decide, by decide⟩
    rw [hwatch] at hfalse
    exact Bool.noConfusion hfalse

/-! ## The privilege context injector -/

/-- C6: for every inner handler, context, request and world, the wrapped handler
behaves as the inner handler called with `NewSystemViewerContext(ctx)` and the
same request, returning its response and error and leaving the world as the inner
handler left it; run on a recording handler it adds exactly one call, with that
context and that request, to the record. -/
theorem systemViewerMiddleware_additive {Ctx Req Resp σ : Type}
    (newSystemViewerContext : Ctx → Ctx) (handler : Handler Ctx Req Resp σ)
    (ctx : Ctx) (req : Req) (w : σ) (calls : List (Ctx × Req)) :
    systemViewerMiddleware newSystemViewerContext handler ctx req w =
        handler (newSystemViewerContext ctx) req w ∧
    (systemViewerMiddleware newSystemViewerContext (recording handler) ctx req (w, calls)).1 =
        (handler (newSystemViewerContext ctx) req w).1 ∧
    (systemViewerMiddleware newSystemViewerContext (recording handler) ctx req (w, calls)).2.1 =
        (handler (newSystemViewerContext ctx) req w).2 ∧
    (systemViewerMiddleware newSystemViewerContext (recording handler) ctx req (w, calls)).2.2 =
        calls ++ [(newSystemViewerContext ctx, req)] ∧
    ((systemViewerMiddleware newSystemViewerContext (recording handler) ctx req (w, calls)).2.2).length =
        calls.length + 1 :=
  ⟨rfl, rfl, rfl, rfl, by simp [systemViewerMiddleware, recording]⟩

/-! ## The system service -/

/-- C8: the code at the failing input.  For two subnets of `2^62` addresses each
the exact sum is `2^63`, but `GetTotalAddresses` returns `-2^63`; with one address
record `GetStats` then reports `TotalAddresses = -2^63` and `UsedAddresses = 1`,
so `UsedAddresses >= TotalAddresses`, yet `AvailableAddresses` is `2^63 - 1`
instead of 0. -/
theorem getStats_available_nonzero_with_used_ge_total :
    (twoHugeSubnets.map Subtype.val).sum = 9223372036854775808 ∧
    (∃ total, GetTotalAddresses (Except.ok twoHugeSubnets) = Except.ok total ∧
      total.val = -9223372036854775808) ∧
    ∃ resp, (GetStats overflowRepo).response = some resp ∧
      resp.TotalAddresses.val = -9223372036854775808 ∧
      resp.UsedAddresses.val = 1 ∧
      resp.UsedAddresses.val ≥ resp.TotalAddresses.val ∧
      resp.AvailableAddresses.val = 9223372036854775807 ∧
      ¬ (resp.AvailableAddresses.val = 0) := by
  refine ⟨by decide, ⟨_, rfl, by decide⟩, _, GetStats_response overflowRepo, ?_⟩
  decide

/-- C9: for every combination of success and failure of the six repository
queries, `GetStats` returns a non-nil response and a nil error; each count field
holds its query's value when the query succeeded and 0 when it failed; all six
queries are issued, in order, whatever fails; and `OverallUtilization` stays at
its zero value whenever `TotalAddresses <= 0`, the quotient being formed only for
a positive total. -/
theorem getStats_never_fails (repo : StatisticsRepo) :
    ∃ resp, (GetStats repo).response = some resp ∧ (GetStats repo).err = none ∧
      (∀ v, repo.GetSubnetCount = Except.ok v → resp.TotalSubnets = v) ∧
      (∀ e, repo.GetSubnetCount = Except.error e → resp.TotalSubnets.val = 0) ∧
      (∀ v, repo.GetTotalAddresses = Except.ok v → resp.TotalAddresses = v) ∧
      (∀ e, repo.GetTotalAddresses = Except.error e → resp.TotalAddresses.val = 0) ∧
      (∀ v, repo.GetTotalAddressCount = Except.ok v → resp.UsedAddresses = v) ∧
      (∀ e, repo.GetTotalAddressCount = Except.error e → resp.UsedAddresses.val = 0) ∧
      (∀ v, repo.GetVlanCount = Except.ok v → resp.TotalVlans = v) ∧
      (∀ e, repo.GetVlanCount = Except.error e → resp.TotalVlans.val = 0) ∧
      (∀ v, repo.GetDeviceCount = Except.ok v → resp.TotalDevices = v) ∧
      (∀ e, repo.GetDeviceCount = Except.error e → resp.TotalDevices.val = 0) ∧
      (∀ v, repo.GetLocationCount = Except.ok v → resp.TotalLocations = v) ∧
      (∀ e, repo.GetLocationCount = Except.error e → resp.TotalLocations.val = 0) ∧
      queriesIssued (GetStats repo).events =
        [StatsQuery.subnetCount, StatsQuery.totalAddresses, StatsQuery.totalAddressCount,
         StatsQuery.vlanCount, StatsQuery.deviceCount, StatsQuery.locationCount] ∧
      (resp.TotalAddresses.val ≤ 0 → resp.OverallUtilization = Utilization.zero) ∧
      (0 < resp.TotalAddresses.val →
        resp.OverallUtilization =
          Utilization.percent resp.UsedAddresses resp.TotalAddresses) := by
  have hok : ∀ (r : Except String GoInt64) (v : GoInt64), r = Except.ok v → valueOrZero r = v := by
    rintro _ v rfl; rfl
  have herr : ∀ (r : Except String GoInt64) (e : String),
      r = Except.error e → (valueOrZero r).val = 0 := by
    rintro _ e rfl; rfl
  refine ⟨_, GetStats_response repo, rfl, hok _, herr _, hok _, herr _, hok _, herr _,
    hok _, herr _, hok _, herr _, hok _, herr _, GetStats_queriesIssued repo, ?_, ?_⟩
  · intro h
    simp only [statsResponse] at h ⊢
    rw [if_neg (not_lt.mpr h)]
  · intro h
    simp only [statsResponse] at h ⊢
    rw [if_pos h]

/-- C7: `TestDnsConfig` always returns a response and a nil error.  When the
request lists at least one DNS server, the repository is not read and the one
lookup is the custom resolver's `LookupAddr` with exactly the request's servers
and timeout 5000.  Otherwise the repository is read once for the request's
tenant; a failed read gives the `Failed to get DNS config: ` response without any
lookup, and a successful read gives one lookup with the stored servers and
timeout: the custom resolver with them when servers are stored, the system
resolver when none are.  A failed lookup yields `Success = false` with the
lookup error's text, a successful one `Success = true` with the first name
found (the empty string when there is none). -/
theorem testDnsConfig_server_choice (getDnsServers : Nat → Except String DnsServers)
    (net : Resolver) (elapsedMs : Int) (req : TestDnsConfigRequest) :
    (TestDnsConfig getDnsServers net elapsedMs req).err = none ∧
    (∃ resp, (TestDnsConfig getDnsServers net elapsedMs req).response = some resp) ∧
    (req.DnsServers ≠ [] →
      configReads (TestDnsConfig getDnsServers net elapsedMs req).events = [] ∧
      lookups (TestDnsConfig getDnsServers net elapsedMs req).events =
        [(req.TestIp, req.DnsServers, 5000)] ∧
      (∀ e, net.customLookupAddr req.DnsServers 5000 req.TestIp = Except.error e →
        (TestDnsConfig getDnsServers net elapsedMs req).response =
          some { Success := false, Hostname := none, ErrorMessage := some e,
                 LatencyMs := some (wrapInt32 elapsedMs) }) ∧
      (∀ names, net.customLookupAddr req.DnsServers 5000 req.TestIp = Except.ok names →
        (TestDnsConfig getDnsServers net elapsedMs req).response =
          some { Success := true, Hostname := some (names.headD ""), ErrorMessage := none,
                 LatencyMs := some (wrapInt32 elapsedMs) })) ∧
    (req.DnsServers = [] →
      configReads (TestDnsConfig getDnsServers net elapsedMs req).events = [req.TenantId] ∧
      (∀ err, getDnsServers req.TenantId = Except.error err →
        (TestDnsConfig getDnsServers net elapsedMs req).response =
          some { Success := false, Hostname := none,
                 ErrorMessage := some ("Failed to get DNS config: " ++ err),
                 LatencyMs := none } ∧
        lookups (TestDnsConfig getDnsServers net elapsedMs req).events = []) ∧
      (∀ cfg, getDnsServers req.TenantId = Except.ok cfg →
        lookups (TestDnsConfig getDnsServers net elapsedMs req).events =
          [(req.TestIp, cfg.servers, cfg.timeoutMs)] ∧
        (cfg.servers ≠ [] →
          (∀ e, net.customLookupAddr cfg.servers cfg.timeoutMs req.TestIp = Except.error e →
            (TestDnsConfig getDnsServers net elapsedMs req).response =
              some { Success := false, Hostname := none, ErrorMessage := some e,
                     LatencyMs := some (wrapInt32 elapsedMs) }) ∧
          (∀ names, net.customLookupAddr cfg.servers cfg.timeoutMs req.TestIp = Except.ok names →
            (TestDnsConfig getDnsServers net elapsedMs req).response =
              some { Success := true, Hostname := some (names.headD ""), ErrorMessage := none,
                     LatencyMs := some (wrapInt32 elapsedMs) })) ∧
        (cfg.servers = [] →
          (∀ e, net.systemLookupAddr req.TestIp = Except.error e →
            (TestDnsConfig getDnsServers net elapsedMs req).response =
              some { Success := false, Hostname := none, ErrorMessage := some e,
                     LatencyMs := some (wrapInt32 elapsedMs) }) ∧
          (∀ names, net.systemLookupAddr req.TestIp = Except.ok names →
            (TestDnsConfig getDnsServers net elapsedMs req).response =
              some { Success := true, Hostname := some (names.headD ""), ErrorMessage := none,
                     LatencyMs := some (wrapInt32 elapsedMs) })))) := by
  rcases req with ⟨tenant, ip, servers⟩
  cases servers with
  | nil =>
    cases hg : getDnsServers tenant with
    | error err =>
      simp [TestDnsConfig, hg, configReads, lookups]
    | ok cfg =>
      rcases cfg with ⟨stored, t, fb⟩
      cases stored with
      | nil =>
        rcases hp : net.systemLookupAddr ip with e | (_ | ⟨n, ns⟩) <;>
          simp [TestDnsConfig, performReverseDNS, hg, hp, configReads, lookups]
      | cons d ds =>
        rcases hp : net.customLookupAddr (d :: ds) t ip with e | (_ | ⟨n, ns⟩) <;>
          simp [TestDnsConfig, performReverseDNS, hg, hp, configReads, lookups]
  | cons d ds =>
    rcases hp : net.customLookupAddr (d :: ds) 5000 ip with e | (_ | ⟨n, ns⟩) <;>
      simp [TestDnsConfig, performReverseDNS, hp, configReads, lookups]

end Ipam
